import Mathlib

/-!
Verification of the CI-integration shims of qodana-action.

The two source files are `scan/src/utils.ts` (the GitHub Actions
implementation) and the Azure Pipelines implementation.  Both are
sequential orchestration code whose effects (logging, subprocess
execution, cache and artifact service calls) we embed as explicit event
traces: every function is modelled as a pure Lean function from its
inputs — including the outcomes of the external host services, passed in
as parameters — to the list of events it performs, together with its
result.  Fallible host calls are modelled with `Except`; a function that
catches every error of a host call is total in the catching argument and
turns the error into a warning event.
-/

namespace Qodana

/-- Effects performed by the shims, in order. -/
inductive Event where
  /-- `core.info` / `tl` informational log line. -/
  | info (msg : String)
  /-- `core.warning` / `tl.warning` log line. -/
  | warn (msg : String)
  /-- `core.setFailed` / `tl.setResult(Failed, msg)`: marks the run failed. -/
  | fail (msg : String)
  /-- `tc.downloadTool` / `tool.downloadTool` of a URL. -/
  | download (url : String)
  /-- `tc.extractZip` / `tool.extractZip` of the downloaded archive. -/
  | extractZip
  /-- `tc.extractTar` / `tool.extractTar` of the downloaded archive. -/
  | extractTar
  /-- `core.addPath` / `tool.prependPath` of the cached tool directory. -/
  | addPath (dir : String)
  /-- Subprocess execution of the qodana executable with an argument vector. -/
  | runTool (argv : List String)
  /-- `cache.saveCache(paths, key)` call. -/
  | saveCacheEv (paths : List String) (key : String)
  /-- `cache.restoreCache(paths, primaryKey, restoreKeys)` call. -/
  | restoreCacheEv (paths : List String) (primaryKey : String) (restoreKeys : List String)
  /-- `glob.create(pattern)` followed by globbing: file enumeration. -/
  | globEv (pattern : String)
  /-- GitHub `artifact.create().uploadArtifact(name, files, rootDir, opts)`. -/
  | uploadArtifactEv (name : String) (files : List String) (rootDir : String)
  /-- Azure `compress.createArchive(resultsDir, zip, archivePath)`. -/
  | archiveEv (resultsDir : String) (archivePath : String)
  /-- Azure `tl.uploadArtifact(containerFolder, path, name)`. -/
  | azUploadEv (containerFolder : String) (p : String) (name : String)
  /-- Azure `tl.cp(src, dst)`. -/
  | cpEv (src : String) (dst : String)
deriving DecidableEq, Repr

/-- `EXECUTABLE` from `common/qodana`: the name of the invoked tool. -/
def EXECUTABLE : String := "qodana"

/-- The immutable configuration record produced by `getInputs()`. -/
structure Inputs where
  args : List String
  resultsDir : String
  cacheDir : String
  primaryCacheKey : String
  additionalCacheKey : String
  cacheDefaultBranchOnly : Bool
  uploadResult : Bool
  artifactName : String
  useCaches : Bool
  useAnnotations : Bool
  prMode : Bool
deriving DecidableEq, Repr

/-- The parts of `github.context` and the process environment the GitHub
implementation reads: the hostname of `GITHUB_SERVER_URL` as resolved by
the URL parser (defaulting to github.com when the variable is unset),
`payload.ref`, `payload.repository?.default_branch`, and
`payload.pull_request?.base.sha` (`none` models an absent pull-request
payload). -/
structure GithubContext where
  serverHostname : String
  ref : Option String
  defaultBranch : Option String
  prBaseSha : Option String
deriving DecidableEq, Repr

/-- Modelled from the spec: `getQodanaScanArgs` lives in `common/qodana`,
which is not among the given sources.  Per §4.3 and §8 of the spec the
scan argument vector always includes the results and cache directory
paths and ends with the free-form user arguments, in stable order. -/
def getQodanaScanArgs (args : List String) (resultsDir cacheDir : String) : List String :=
  ["scan", "--results-dir", resultsDir, "--cache-dir", cacheDir] ++ args

/-- Modelled from the spec: `getQodanaPullArgs` lives in `common/qodana`,
which is not among the given sources.  Per §4.3 the pull argument vector
instructs the tool to fetch its analysis engine, passing the user
arguments through. -/
def getQodanaPullArgs (args : List String) : List String :=
  "pull" :: args

/-- Modelled from the spec: `getQodanaSha256MismatchMessage` lives in
`common/qodana`, which is not among the given sources.  Per §4.1 the
fatal integrity message states both the expected and the actual value. -/
def getQodanaSha256MismatchMessage (expected actual : String) : String :=
  "Downloaded Qodana CLI binary is corrupted. Expected checksum: " ++ expected ++
    ", actual checksum: " ++ actual

/-- Modelled from the spec: `getQodanaUrl` lives in `common/qodana`,
which is not among the given sources.  Per §4.2 it resolves a download
URL from the (architecture, platform) pair. -/
def getQodanaUrl (arch platform : String) : String :=
  "https://github.com/JetBrains/qodana-cli/releases/download/qodana_" ++
    platform ++ "_" ++ arch

/-- The argument vector the GitHub `qodana` function passes to the
executable: explicit arguments win; with an empty list the scan
arguments are derived from the inputs, and in PR mode with a
pull-request payload present the `--commit CI<base sha>` pair is pushed. -/
def qodanaArgs (prMode : Bool) (args : List String) (inputs : Inputs)
    (ctx : GithubContext) : List String :=
  if args.isEmpty then
    let derived := getQodanaScanArgs inputs.args inputs.resultsDir inputs.cacheDir
    if prMode then
      match ctx.prBaseSha with
      | some sha => derived ++ ["--commit", "CI" ++ sha]
      | none => derived
    else derived
  else args

/-- The argument vector the Azure `qodana` function passes to the
executable: explicit arguments win; with an empty list the scan
arguments are derived from the inputs (no PR mode on Azure). -/
def azQodanaArgs (args : List String) (inputs : Inputs) : List String :=
  if args.isEmpty then
    getQodanaScanArgs inputs.args inputs.resultsDir inputs.cacheDir
  else args

/-- The environment overlay `{...process.env, NONINTERACTIVE: '1'}`:
the ambient environment with `NONINTERACTIVE` forced to `"1"`. -/
def overlayEnv (ambient : String → Option String) : String → Option String :=
  fun k => if k = "NONINTERACTIVE" then some "1" else ambient k

/-- A call to the host process-execution service. -/
structure ExecCall where
  exe : String
  argv : List String
  ignoreReturnCode : Bool
  env : String → Option String

/-- Host process execution (`exec.getExecOutput` / `tl.exec`): yields the
subprocess exit code, computed by the oracle `exitOf` from the argument
vector and environment, but rejects (models the thrown error) when the
exit code is nonzero and `ignoreReturnCode` was not set. -/
def hostExec (exitOf : List String → (String → Option String) → Int)
    (c : ExecCall) : Except String Int :=
  let code := exitOf c.argv c.env
  if code ≠ 0 ∧ c.ignoreReturnCode = false then
    Except.error ("The process failed with exit code " ++ toString code)
  else
    Except.ok code

/-- The GitHub `qodana` function: builds the argument vector, executes
the tool with `ignoreReturnCode: true` and the `NONINTERACTIVE=1`
overlay, and returns the exit code. -/
def qodanaRun (exitOf : List String → (String → Option String) → Int)
    (ambient : String → Option String) (prMode : Bool) (args : List String)
    (inputs : Inputs) (ctx : GithubContext) : Except String Int :=
  hostExec exitOf
    { exe := EXECUTABLE
      argv := qodanaArgs prMode args inputs ctx
      ignoreReturnCode := true
      env := overlayEnv ambient }

/-- The Azure `qodana` function: same execution contract, Azure argument
derivation. -/
def azQodanaRun (exitOf : List String → (String → Option String) → Int)
    (ambient : String → Option String) (args : List String)
    (inputs : Inputs) : Except String Int :=
  hostExec exitOf
    { exe := EXECUTABLE
      argv := azQodanaArgs args inputs
      ignoreReturnCode := true
      env := overlayEnv ambient }

/-- The host-dependent facts `prepareAgent` consumes: the resolved
architecture and platform names, the expected checksum registered for
that pair (`getQodanaSha256`), the actual checksum of the downloaded
file (`sha256sum`), whether `process.platform` is win32, the directory
returned by the tool cache, and the exit code of the pull subprocess. -/
structure AgentEnv where
  arch : String
  platform : String
  expectedChecksum : String
  actualChecksum : String
  win32 : Bool
  toolCacheDir : String
  pullExitCode : Int
deriving DecidableEq, Repr

/-- Event trace of the GitHub `prepareAgent`: download, checksum check
(`setFailed` on mismatch, with no early return), extraction, path
installation, the pull invocation, and `setFailed` on a nonzero pull
exit code. -/
def prepareAgentTrace (env : AgentEnv) (args : List String) : List Event :=
  [Event.download (getQodanaUrl env.arch env.platform)] ++
  (if env.expectedChecksum ≠ env.actualChecksum then
      [Event.fail (getQodanaSha256MismatchMessage env.expectedChecksum env.actualChecksum)]
    else []) ++
  [if env.win32 then Event.extractZip else Event.extractTar] ++
  [Event.addPath env.toolCacheDir] ++
  [Event.runTool (getQodanaPullArgs args)] ++
  (if env.pullExitCode ≠ 0 then
      [Event.fail ("qodana pull failed with exit code " ++ toString env.pullExitCode)]
    else [])

/-- Event trace of the Azure `prepareAgent`: identical structure, with
the Azure failure message on a nonzero pull exit code. -/
def azPrepareAgentTrace (env : AgentEnv) (args : List String) : List Event :=
  [Event.download (getQodanaUrl env.arch env.platform)] ++
  (if env.expectedChecksum ≠ env.actualChecksum then
      [Event.fail (getQodanaSha256MismatchMessage env.expectedChecksum env.actualChecksum)]
    else []) ++
  [if env.win32 then Event.extractZip else Event.extractTar] ++
  [Event.addPath env.toolCacheDir] ++
  [Event.runTool (getQodanaPullArgs args)] ++
  (if env.pullExitCode ≠ 0 then
      [Event.fail "Unable to run \x27qodana pull\x27"]
    else [])

/-- Whether an event is an invocation of the scan subcommand of the tool. -/
def isScanInvocation : Event → Bool
  | Event.runTool argv => argv.head? == some "scan"
  | _ => false

/-- Modelled from the spec: the pipeline driver (the main entry point
calling `prepareAgent` and then `qodana`) is not among the given
sources.  Per §6 of the spec, a nonzero exit from the pull invocation is
always fatal and the pipeline aborts before scanning; otherwise the scan
invocation follows agent preparation, deriving its arguments. -/
def pipelineTrace (env : AgentEnv) (inputs : Inputs) (ctx : GithubContext)
    (args : List String) : List Event :=
  prepareAgentTrace env args ++
  (if env.pullExitCode = 0 then
      [Event.runTool (qodanaArgs inputs.prMode [] inputs ctx)]
    else [])

/-- Modelled from the spec: the Azure pipeline driver is not among the
given sources.  Per §6 of the spec, a nonzero exit from the pull
invocation is always fatal and the pipeline aborts before scanning. -/
def azPipelineTrace (env : AgentEnv) (inputs : Inputs)
    (args : List String) : List Event :=
  azPrepareAgentTrace env args ++
  (if env.pullExitCode = 0 then
      [Event.runTool (azQodanaArgs [] inputs)]
    else [])

/-- ASCII uppercase of a character, as `toUpperCase` acts on the ASCII
range of a hostname. -/
def upperChar (c : Char) : Char :=
  if 97 ≤ c.toNat ∧ c.toNat ≤ 122 then Char.ofNat (c.toNat - 32) else c

/-- ASCII uppercase of a string, modelling JS `toUpperCase` on
hostnames. -/
def upperAscii (s : String) : String :=
  String.mk (s.data.map upperChar)

/-- `isServer()`: the host is a GitHub Enterprise Server instance when
the hostname of the server URL, compared case-insensitively (the code
uppercases it), is not github.com. -/
def isServer (ctx : GithubContext) : Bool :=
  upperAscii ctx.serverHostname ≠ "GITHUB.COM"

/-- The GHES warning message emitted by both cache functions. -/
def ghesWarning : String :=
  "Cache is not supported on GHES. See https://github.com/actions/cache/issues/505 for more details"

/-- `uploadCaches`: returns immediately when `execute` is false;
short-circuits with a warning on GHES; otherwise attempts the cache
save, whose outcome `saveCacheRes` is the host cache service's result;
a save failure is caught and turned into a warning.  The `Except.ok`
result models that no error escapes the function. -/
def uploadCaches (ctx : GithubContext) (saveCacheRes : Except String Unit)
    (cacheDir primaryKey : String) (execute : Bool) : Except String (List Event) :=
  if !execute then Except.ok []
  else if isServer ctx then Except.ok [Event.warn ghesWarning]
  else match saveCacheRes with
    | Except.ok _ =>
        Except.ok [Event.saveCacheEv [cacheDir] primaryKey,
          Event.info ("Cache saved with key " ++ primaryKey)]
    | Except.error m =>
        Except.ok [Event.saveCacheEv [cacheDir] primaryKey,
          Event.warn ("Failed to save cache with key " ++ primaryKey ++ " – " ++ m)]

/-- `restoreCaches`: returns immediately when `execute` is false;
short-circuits with a warning on GHES; otherwise attempts the restore
with the primary key and the single restore key, whose outcome
`restoreRes` is the host cache service's result: `ok (some key)` is a
hit, `ok none` a miss (logged with the list of keys), and an error is
caught and turned into a warning.  The `Except.ok` result models that no
error escapes the function. -/
def restoreCaches (ctx : GithubContext) (restoreRes : Except String (Option String))
    (cacheDir primaryKey additionalCacheKey : String) (execute : Bool) :
    Except String (List Event) :=
  if !execute then Except.ok []
  else if isServer ctx then Except.ok [Event.warn ghesWarning]
  else
    let restoreKeys := [additionalCacheKey]
    match restoreRes with
    | Except.ok (some key) =>
        Except.ok [Event.restoreCacheEv [cacheDir] primaryKey restoreKeys,
          Event.info ("Cache restored from key: " ++ key)]
    | Except.ok none =>
        Except.ok [Event.restoreCacheEv [cacheDir] primaryKey restoreKeys,
          Event.info ("Cache not found for input keys: " ++
            String.intercalate ", " (primaryKey :: restoreKeys))]
    | Except.error m =>
        Except.ok [Event.restoreCacheEv [cacheDir] primaryKey restoreKeys,
          Event.warn ("Failed to restore cache with key " ++ primaryKey ++ " – " ++ m)]

/-- `isNeedToUploadCache`: warns on the conflicting flag combination;
with caching enabled and the default-branch-only flag set, uploads are
needed exactly when the current ref equals the configured default
branch; otherwise the use-caches flag decides.  Returns the emitted
events together with the decision. -/
def isNeedToUploadCache (useCaches cacheDefaultBranchOnly : Bool)
    (ctx : GithubContext) : List Event × Bool :=
  let warnEvents :=
    if !useCaches && cacheDefaultBranchOnly then
      [Event.warn "Turn on \x22use-cache\x22 option to use \x22cache-default-branch-only\x22"]
    else []
  if useCaches && cacheDefaultBranchOnly then
    (warnEvents, ctx.ref == ctx.defaultBranch)
  else
    (warnEvents, useCaches)

/-- `path.dirname`, modelling the Node path helper: everything before
the last separator. -/
def dirname (p : String) : String :=
  String.intercalate "/" ((p.splitOn "/").dropLast)

/-- `path.join` of two segments, modelling the Node path helper. -/
def pathJoin (a b : String) : String :=
  a ++ "/" ++ b

/-- The GitHub `uploadReport`: returns immediately when `execute` is
false; otherwise logs, enumerates `resultsDir/*` (yielding `files`), and
uploads them as a named artifact rooted at the parent directory; any
error of the platform call (`uploadRes`) is caught and turned into a
warning. -/
def uploadReport (resultsDir artifactName : String) (execute : Bool)
    (files : List String) (uploadRes : Except String Unit) :
    Except String (List Event) :=
  if !execute then Except.ok []
  else
    let steps := [Event.info "Uploading report...",
      Event.globEv (resultsDir ++ "/*"),
      Event.uploadArtifactEv artifactName files (dirname resultsDir)]
    match uploadRes with
    | Except.ok _ => Except.ok steps
    | Except.error m =>
        Except.ok (steps ++ [Event.warn ("Failed to upload report – " ++ m)])

/-- The Azure `uploadReport`: returns immediately when `execute` is
false; otherwise stages a zip archive of the results directory and the
sarif file as two named artifacts; any error of the staging or platform
calls (`uploadRes`) is caught and turned into a warning. -/
def azUploadReport (resultsDir artifactName : String) (execute : Bool)
    (uploadRes : Except String Unit) : Except String (List Event) :=
  if !execute then Except.ok []
  else
    let parentDir := dirname resultsDir
    let archivePath := pathJoin parentDir (artifactName ++ ".zip")
    let qodanaSarif := pathJoin parentDir "qodana.sarif"
    let steps := [Event.archiveEv resultsDir archivePath,
      Event.azUploadEv "Qodana" archivePath artifactName,
      Event.cpEv (pathJoin resultsDir "qodana.sarif.json") qodanaSarif,
      Event.azUploadEv "CodeAnalysisLogs" qodanaSarif "CodeAnalysisLogs"]
    match uploadRes with
    | Except.ok _ => Except.ok steps
    | Except.error m =>
        Except.ok (steps ++ [Event.warn ("Failed to upload report – " ++ m)])

/-- The raw values the Azure task reads from the host: `tl.getInput`
results as `Option String` (`none` models an undefined input),
`tl.getBoolInput` results as `Bool`, and the agent temp directory. -/
structure AzRawInputs where
  args : Option String
  resultsDir : Option String
  cacheDir : Option String
  uploadResult : Bool
  artifactName : Option String
  agentTempDirectory : String
deriving DecidableEq, Repr

/-- The JS `x || d` idiom on an optional string: the default is taken
when the input is undefined or empty. -/
def orDefault (v : Option String) (d : String) : String :=
  match v with
  | some s => if s = "" then d else s
  | none => d

/-- The Azure `getInputs()`: argument splitting on commas with
trimming, defaulted paths under the agent temp directory, and
`uploadResult` computed as the boolean input or-ed with `true`. -/
def azGetInputs (raw : AzRawInputs) : Inputs :=
  let home := pathJoin raw.agentTempDirectory "qodana"
  { args := ((orDefault raw.args "").splitOn ",").map (fun a => a.trim)
    resultsDir := orDefault raw.resultsDir (pathJoin home "results")
    cacheDir := orDefault raw.cacheDir (pathJoin home "cache")
    uploadResult := raw.uploadResult || true
    artifactName := orDefault raw.artifactName "qodana-report"
    additionalCacheKey := ""
    primaryCacheKey := ""
    useAnnotations := false
    useCaches := false
    cacheDefaultBranchOnly := false
    prMode := false }

/-- Sample concrete inputs used by witness theorems. -/
def sampleInputs : Inputs :=
  { args := ["--baseline", "qodana.sarif.json"]
    resultsDir := "/tmp/res"
    cacheDir := "/tmp/cache"
    primaryCacheKey := "pk"
    additionalCacheKey := "ak"
    cacheDefaultBranchOnly := false
    uploadResult := true
    artifactName := "qodana-report"
    useCaches := true
    useAnnotations := true
    prMode := false }

/-- Sample github.com context with a pull-request payload, used by
witness theorems. -/
def sampleCtx : GithubContext :=
  { serverHostname := "github.com"
    ref := some "refs/heads/main"
    defaultBranch := some "main"
    prBaseSha := some "abc123" }

/-- Sample GitHub Enterprise Server context, used by witness theorems. -/
def ghesCtx : GithubContext :=
  { serverHostname := "ghe.example.com"
    ref := none
    defaultBranch := none
    prBaseSha := none }

/-- A concrete agent environment whose downloaded file fails the
checksum comparison. -/
def mismatchEnv : AgentEnv :=
  { arch := "x86_64"
    platform := "linux"
    expectedChecksum := "aaa"
    actualChecksum := "bbb"
    win32 := false
    toolCacheDir := "/opt/qodana"
    pullExitCode := 0 }

/-- A concrete agent environment whose pull invocation exits nonzero. -/
def pullFailEnv : AgentEnv :=
  { arch := "x86_64"
    platform := "linux"
    expectedChecksum := "aaa"
    actualChecksum := "aaa"
    win32 := false
    toolCacheDir := "/opt/qodana"
    pullExitCode := 1 }

/-- No event of the GitHub agent-preparation trace is a scan
invocation: the only subprocess run is the pull invocation. -/
theorem prepareAgentTrace_no_scan (env : AgentEnv) (args : List String) :
    ∀ e ∈ prepareAgentTrace env args, isScanInvocation e = false := by
  have hall : (prepareAgentTrace env args).all (fun e => !(isScanInvocation e)) = true := by
    obtain ⟨a, p, ec, ac, w, t, pc⟩ := env
    unfold prepareAgentTrace
    cases w <;> split_ifs <;> simp [isScanInvocation, getQodanaPullArgs]
  intro e he
  simpa using List.all_eq_true.mp hall e he

/-- No event of the Azure agent-preparation trace is a scan invocation:
the only subprocess run is the pull invocation. -/
theorem azPrepareAgentTrace_no_scan (env : AgentEnv) (args : List String) :
    ∀ e ∈ azPrepareAgentTrace env args, isScanInvocation e = false := by
  have hall : (azPrepareAgentTrace env args).all (fun e => !(isScanInvocation e)) = true := by
    obtain ⟨a, p, ec, ac, w, t, pc⟩ := env
    unfold azPrepareAgentTrace
    cases w <;> split_ifs <;> simp [isScanInvocation, getQodanaPullArgs]
  intro e he
  simpa using List.all_eq_true.mp hall e he

/-- C1: at a concrete checksum mismatch both implementations of
`prepareAgent` do report the fatal integrity failure whose message
contains both the expected and the actual hash value — but the pipeline
does not abort there: extraction, path installation and the pull
invocation still occur after the mismatch is detected, because neither
implementation returns after `setFailed`. -/
theorem claim_c1_mismatch_does_not_abort :
    (Event.fail (getQodanaSha256MismatchMessage "aaa" "bbb") ∈ prepareAgentTrace mismatchEnv [] ∧
      Event.extractTar ∈ prepareAgentTrace mismatchEnv [] ∧
      Event.addPath "/opt/qodana" ∈ prepareAgentTrace mismatchEnv [] ∧
      Event.runTool (getQodanaPullArgs []) ∈ prepareAgentTrace mismatchEnv []) ∧
    (Event.fail (getQodanaSha256MismatchMessage "aaa" "bbb") ∈ azPrepareAgentTrace mismatchEnv [] ∧
      Event.extractTar ∈ azPrepareAgentTrace mismatchEnv [] ∧
      Event.addPath "/opt/qodana" ∈ azPrepareAgentTrace mismatchEnv [] ∧
      Event.runTool (getQodanaPullArgs []) ∈ azPrepareAgentTrace mismatchEnv []) ∧
    getQodanaSha256MismatchMessage "aaa" "bbb" =
      "Downloaded Qodana CLI binary is corrupted. Expected checksum: aaa, actual checksum: bbb" := by
  decide

/-- C2: explicit arguments win.  With a non-empty argument list, both
implementations of `qodana` run the executable with exactly that list;
the resulting argument vector is independent of the inputs record
(results directory, cache directory), the PR-mode flag and the GitHub
context, and no derivation is appended. -/
theorem claim_c2_explicit_args_win (prMode prMode2 : Bool) (args : List String)
    (i1 i2 : Inputs) (c1 c2 : GithubContext) (h : args ≠ []) :
    qodanaArgs prMode args i1 c1 = args ∧
    qodanaArgs prMode args i1 c1 = qodanaArgs prMode2 args i2 c2 ∧
    azQodanaArgs args i1 = args := by
  cases args with
  | nil => exact absurd rfl h
  | cons a as => simp [qodanaArgs, azQodanaArgs]

/-- Witness for C2 at a concrete non-empty argument list. -/
theorem claim_c2_witness :
    qodanaArgs true ["--help"] sampleInputs sampleCtx = ["--help"] :=
  (claim_c2_explicit_args_win true false ["--help"] sampleInputs sampleInputs
    sampleCtx ghesCtx (by decide)).1

/-- C3: in the derived case, PR mode with a pull-request payload
present appends `--commit` followed by the base sha prefixed with `CI`;
with PR mode off or no pull-request payload, the derived vector is
exactly the scan arguments, with no `--commit` pair appended. -/
theorem claim_c3_commit_flag (inputs : Inputs) (ctx : GithubContext) (prMode : Bool) :
    (∀ sha, ctx.prBaseSha = some sha → prMode = true →
      qodanaArgs prMode [] inputs ctx =
        getQodanaScanArgs inputs.args inputs.resultsDir inputs.cacheDir ++
          ["--commit", "CI" ++ sha] ∧
      "--commit" ∈ qodanaArgs prMode [] inputs ctx) ∧
    (prMode = false ∨ ctx.prBaseSha = none →
      qodanaArgs prMode [] inputs ctx =
        getQodanaScanArgs inputs.args inputs.resultsDir inputs.cacheDir) := by
  constructor
  · intro sha hsha hpr
    subst hpr
    constructor
    · simp [qodanaArgs, hsha]
    · simp [qodanaArgs, hsha]
  · rintro (hpr | hnone)
    · subst hpr
      simp [qodanaArgs]
    · cases prMode <;> simp [qodanaArgs, hnone]

/-- Witness for C3 at a concrete pull-request context. -/
theorem claim_c3_witness :
    qodanaArgs true [] sampleInputs sampleCtx =
      getQodanaScanArgs sampleInputs.args sampleInputs.resultsDir sampleInputs.cacheDir ++
        ["--commit", "CI" ++ "abc123"] :=
  ((claim_c3_commit_flag sampleInputs sampleCtx true).1 "abc123" rfl rfl).1

/-- C4: the process runner executes the tool with `ignoreReturnCode`
set, so for every exit-code oracle — including nonzero exits — the call
never rejects and the exit code is returned as the sole result, and the
environment passed to the subprocess is the ambient environment with
`NONINTERACTIVE` set to `"1"` on top. -/
theorem claim_c4_runner_contract (exitOf : List String → (String → Option String) → Int)
    (ambient : String → Option String) (prMode : Bool) (args : List String)
    (inputs : Inputs) (ctx : GithubContext) :
    qodanaRun exitOf ambient prMode args inputs ctx =
      Except.ok (exitOf (qodanaArgs prMode args inputs ctx) (overlayEnv ambient)) ∧
    azQodanaRun exitOf ambient args inputs =
      Except.ok (exitOf (azQodanaArgs args inputs) (overlayEnv ambient)) ∧
    (∀ k, overlayEnv ambient k = if k = "NONINTERACTIVE" then some "1" else ambient k) := by
  refine ⟨?_, ?_, fun _ => rfl⟩
  · simp [qodanaRun, hostExec]
  · simp [azQodanaRun, hostExec]

/-- C5: off GHES with caching enabled, a failing cache save makes
`uploadCaches` emit exactly a warning after the attempted save — the
error never propagates (the result is `ok`); and a restore that finds no
cache for any key makes `restoreCaches` log the not-found message
listing the primary and fallback keys and return normally. -/
theorem claim_c5_cache_errors_warn_only (ctx : GithubContext) (cacheDir pk ak m : String)
    (hs : isServer ctx = false) :
    uploadCaches ctx (Except.error m) cacheDir pk true =
      Except.ok [Event.saveCacheEv [cacheDir] pk,
        Event.warn ("Failed to save cache with key " ++ pk ++ " – " ++ m)] ∧
    restoreCaches ctx (Except.ok none) cacheDir pk ak true =
      Except.ok [Event.restoreCacheEv [cacheDir] pk [ak],
        Event.info ("Cache not found for input keys: " ++
          String.intercalate ", " [pk, ak])] := by
  constructor <;> simp [uploadCaches, restoreCaches, hs]

/-- Witness for C5 at a concrete failing save on github.com. -/
theorem claim_c5_witness :
    uploadCaches sampleCtx (Except.error "quota") "/tmp/cache" "pk" true =
      Except.ok [Event.saveCacheEv ["/tmp/cache"] "pk",
        Event.warn ("Failed to save cache with key " ++ "pk" ++ " – " ++ "quota")] :=
  (claim_c5_cache_errors_warn_only sampleCtx "/tmp/cache" "pk" "ak" "quota" (by decide)).1

/-- C6: with caching enabled and the default-branch-only flag set,
`isNeedToUploadCache` decides exactly whether the current ref equals the
configured default branch; with the flag unset it returns the use-caches
flag; and `restoreCaches` reads nothing of the context beyond the server
hostname, so restore behaviour is unaffected by the ref and the default
branch. -/
theorem claim_c6_default_branch_policy (useCaches cdbo : Bool) (ctx ctx2 : GithubContext) :
    (useCaches = true → cdbo = true →
      (isNeedToUploadCache useCaches cdbo ctx).2 = (ctx.ref == ctx.defaultBranch)) ∧
    (cdbo = false → (isNeedToUploadCache useCaches cdbo ctx).2 = useCaches) ∧
    (∀ (res : Except String (Option String)) (cd pk ak : String) (ex : Bool),
      ctx.serverHostname = ctx2.serverHostname →
      restoreCaches ctx res cd pk ak ex = restoreCaches ctx2 res cd pk ak ex) := by
  refine ⟨?_, ?_, ?_⟩
  · rintro rfl rfl
    simp [isNeedToUploadCache]
  · rintro rfl
    simp [isNeedToUploadCache]
  · intro res cd pk ak ex hh
    simp [restoreCaches, isServer, hh]

/-- Witness for C6 at concrete flags and context. -/
theorem claim_c6_witness :
    (isNeedToUploadCache true true sampleCtx).2 = (sampleCtx.ref == sampleCtx.defaultBranch) :=
  (claim_c6_default_branch_policy true true sampleCtx ghesCtx).1 rfl rfl

/-- C7: with the execute flag false, both implementations of
`uploadReport` return immediately with an empty event trace: no file
enumeration, no archiving, no platform artifact call. -/
theorem claim_c7_upload_noop_when_disabled (resultsDir artifactName : String)
    (files : List String) (res res2 : Except String Unit) :
    uploadReport resultsDir artifactName false files res = Except.ok [] ∧
    azUploadReport resultsDir artifactName false res2 = Except.ok [] := by
  constructor <;> simp [uploadReport, azUploadReport]

/-- C8: on a GitHub Enterprise Server host, both cache functions
short-circuit with exactly the GHES warning — no cache service call
appears in the trace and the result is `ok`, so no exception escapes. -/
theorem claim_c8_ghes_short_circuit (ctx : GithubContext) (h : isServer ctx = true)
    (saveRes : Except String Unit) (restoreRes : Except String (Option String))
    (cd pk ak : String) :
    uploadCaches ctx saveRes cd pk true = Except.ok [Event.warn ghesWarning] ∧
    restoreCaches ctx restoreRes cd pk ak true = Except.ok [Event.warn ghesWarning] := by
  constructor <;> simp [uploadCaches, restoreCaches, h]

/-- Witness for C8 at a concrete enterprise hostname. -/
theorem claim_c8_witness :
    uploadCaches ghesCtx (Except.ok ()) "/c" "pk" true = Except.ok [Event.warn ghesWarning] ∧
    restoreCaches ghesCtx (Except.ok none) "/c" "pk" "ak" true =
      Except.ok [Event.warn ghesWarning] :=
  claim_c8_ghes_short_circuit ghesCtx (by decide) (Except.ok ()) (Except.ok none) "/c" "pk" "ak"

/-- C9: when the pull invocation exits nonzero, both implementations
report the fatal failure, and the pipeline trace contains no scan
invocation — the run aborts before scanning. -/
theorem claim_c9_pull_failure_aborts (env : AgentEnv) (inputs : Inputs)
    (ctx : GithubContext) (args : List String) (h : env.pullExitCode ≠ 0) :
    (Event.fail ("qodana pull failed with exit code " ++ toString env.pullExitCode) ∈
        pipelineTrace env inputs ctx args ∧
      ∀ e ∈ pipelineTrace env inputs ctx args, isScanInvocation e = false) ∧
    (Event.fail "Unable to run \x27qodana pull\x27" ∈ azPipelineTrace env inputs args ∧
      ∀ e ∈ azPipelineTrace env inputs args, isScanInvocation e = false) := by
  have hz : (if env.pullExitCode = 0 then True else False) = False := by simp [h]
  constructor
  · constructor
    · simp [pipelineTrace, prepareAgentTrace, h]
    · intro e he
      rw [pipelineTrace, if_neg h, List.append_nil] at he
      exact prepareAgentTrace_no_scan env args e he
  · constructor
    · simp [azPipelineTrace, azPrepareAgentTrace, h]
    · intro e he
      rw [azPipelineTrace, if_neg h, List.append_nil] at he
      exact azPrepareAgentTrace_no_scan env args e he

/-- Witness for C9 at a concrete failing pull exit code. -/
theorem claim_c9_witness :
    Event.fail ("qodana pull failed with exit code " ++ toString pullFailEnv.pullExitCode) ∈
      pipelineTrace pullFailEnv sampleInputs sampleCtx [] :=
  ((claim_c9_pull_failure_aborts pullFailEnv sampleInputs sampleCtx [] (by decide)).1).1

/-- C10: the Azure `getInputs` computes `uploadResult` as the boolean
input or-ed with `true`, so the returned record has `uploadResult = true`
for every possible raw input, including an explicit false. -/
theorem claim_c10_upload_result_always_true (raw : AzRawInputs) :
    (azGetInputs raw).uploadResult = true := by
  simp [azGetInputs]

end Qodana
